import Mathlib

/-!
Verification of the motiva backend's authentication and ownership-scoping
subsystem against its specification.

The Python sources are shallowly embedded:
* `datetime` values are `Nat` (seconds since an arbitrary epoch); `timedelta`
  values are `Nat` seconds.  Functions that read the current clock take an
  explicit `now : Nat` argument.
* Nullable database columns and optional Python attributes are `Option`s.
* A JSON-style partial-update payload field is `Option (Option α)`: the outer
  layer records whether the key was provided at all (pydantic's
  `exclude_unset` semantics), the inner layer is the value, which may itself
  be JSON `null`.
* `fastapi.HTTPException` is the record `HTTPError` (status code, detail
  string, optional `WWW-Authenticate` header value); a Python exception that
  no handler catches is a separate `Outcome.exn` constructor, since FastAPI
  turns it into a 500 response rather than an `HTTPException`.
* JWT cryptography is symbolic: `jwt.encode` produces a `Jwt` record carrying
  its claims, signing key and algorithm, and `jwt.decode` succeeds exactly
  when key and algorithm match and the token is not expired (python-jose
  checks `exp < now` with zero leeway).  Arbitrary non-JWT strings are the
  `TokenStr.malformed` constructor.
-/

namespace Motiva

/-- `fastapi.HTTPException`: status code, detail, and the optional
`WWW-Authenticate` header value (`some "Bearer"` when the source passes
`headers={"WWW-Authenticate": "Bearer"}`). -/
structure HTTPError where
  status_code : Nat
  detail : String
  www_authenticate : Option String
deriving DecidableEq, Repr

/-- Embeds `src/app/config.py` (`Settings`): the fields the auth subsystem
reads.  `ALGORITHM` defaults to `"HS256"` and `ACCESS_TOKEN_EXPIRE_MINUTES`
to `30`, as in `config.py`. -/
structure Settings where
  SECRET_KEY : String
  ALGORITHM : String := "HS256"
  ACCESS_TOKEN_EXPIRE_MINUTES : Nat := 30
deriving DecidableEq, Repr

/-- A signed JWT as produced by `jose.jwt.encode` in `create_access_token`:
the `sub` claim (the only claim the repository ever puts in `data`), the
`exp` claim, and, symbolically, the signing key and algorithm. -/
structure Jwt where
  sub : Option String
  exp : Nat
  key : String
  alg : String
deriving DecidableEq, Repr

/-- A candidate token string: either a well-formed JWT or any other string
(which `jose.jwt.decode` rejects as malformed). -/
inductive TokenStr where
  | jwt (j : Jwt)
  | malformed (s : String)
deriving DecidableEq, Repr

/-- Whether the token string is the empty string (a real `Jwt` encodes to a
nonempty three-segment string, so only `malformed ""` is empty).  Used for
Python truthiness of the credentials part of the authorization header. -/
def TokenStr.strEmpty : TokenStr → Bool
  | .jwt _ => false
  | .malformed s => s.data.isEmpty

/-- Python's `str.lower` as applied to the header scheme by `HTTPBearer`
(character-wise lowering; spelled over `String.data` so that it computes
by the kernel's list evaluation). -/
def pyLower (s : String) : String :=
  String.mk (s.data.map Char.toLower)

/-- Python's `expires_delta or timedelta(minutes=15)`
(src/app/utils/auth.py:30): `or` tests truthiness, and both `None` and the
falsy `timedelta(0)` fall back to the hard-coded 15 minutes. -/
def ttlOrDefault (expires_delta : Option Nat) : Nat :=
  match expires_delta with
  | none => 15 * 60
  | some d => if d = 0 then 15 * 60 else d

/-- Embeds `create_access_token` (src/app/utils/auth.py:28-33).
`data_sub` is the `"sub"` entry of the `data` dict (the only key callers
pass); `expires_delta` is in seconds; an absent — or zero, hence falsy —
delta falls back to `timedelta(minutes=15)` via `ttlOrDefault`. -/
def create_access_token (s : Settings) (data_sub : Option String)
    (expires_delta : Option Nat) (now : Nat) : Jwt :=
  { sub := data_sub
    exp := now + ttlOrDefault expires_delta
    key := s.SECRET_KEY
    alg := s.ALGORITHM }

/-- Embeds `jose.jwt.decode(token, SECRET_KEY, algorithms=[ALGORITHM])`:
succeeds iff the token is structurally a JWT, its signature key and
algorithm match the settings, and it is not expired (python-jose raises
`ExpiredSignatureError`, a `JWTError`, when `exp < now`, zero leeway). -/
def jwtDecode (s : Settings) (now : Nat) : TokenStr → Option Jwt
  | .malformed _ => none
  | .jwt j =>
      if j.key = s.SECRET_KEY ∧ j.alg = s.ALGORITHM ∧ ¬ j.exp < now then
        some j
      else
        none

/-- The 401 raised by `verify_token` for any `JWTError` or missing `sub`
claim (src/app/utils/auth.py:40-52). -/
def tokenInvalid401 : HTTPError :=
  { status_code := 401, detail := "Token tidak valid", www_authenticate := some "Bearer" }

/-- The 401 raised by `get_current_user` when the decoded subject has no
stored user (src/app/utils/auth.py:58-63). -/
def userNotFound401 : HTTPError :=
  { status_code := 401, detail := "User tidak ditemukan", www_authenticate := some "Bearer" }

/-- Embeds `verify_token` (src/app/utils/auth.py:36-52): decode, then
require a `sub` claim; every failure is the same 401 with a
`WWW-Authenticate: Bearer` header. -/
def verify_token (s : Settings) (now : Nat) (token : TokenStr) :
    Except HTTPError String :=
  match jwtDecode s now token with
  | none => .error tokenInvalid401
  | some payload =>
      match payload.sub with
      | none => .error tokenInvalid401
      | some email => .ok email

/-- The value of an `Authorization` header, pre-split the way
`fastapi.security.utils.get_authorization_scheme_param` splits it with
`partition(" ")`: a header containing no space yields `(text, "")`
(constructor `noSpace`); a header containing a space yields the text before
the first space as the scheme and the rest as the credentials
(constructor `withScheme`, credentials kept as a `TokenStr`). -/
inductive HeaderValue where
  | noSpace (text : String)
  | withScheme (scheme : String) (credentials : TokenStr)
deriving DecidableEq, Repr

/-- Embeds `fastapi.security.HTTPBearer.__call__` with `auto_error=True`
(the `security = HTTPBearer()` dependency of src/app/utils/auth.py:16):
missing header, empty scheme or empty credentials raise
`HTTPException(403, "Not authenticated")`; a scheme other than `bearer`
(case-insensitive) raises
`HTTPException(403, "Invalid authentication credentials")`; neither carries
a `WWW-Authenticate` header.  Otherwise the credentials are returned. -/
def httpBearer (authorization : Option HeaderValue) : Except HTTPError TokenStr :=
  match authorization with
  | none => .error { status_code := 403, detail := "Not authenticated", www_authenticate := none }
  | some (.noSpace _) =>
      .error { status_code := 403, detail := "Not authenticated", www_authenticate := none }
  | some (.withScheme scheme credentials) =>
      if scheme.data.isEmpty ∨ credentials.strEmpty then
        .error { status_code := 403, detail := "Not authenticated", www_authenticate := none }
      else if ¬ pyLower scheme = "bearer" then
        .error { status_code := 403, detail := "Invalid authentication credentials", www_authenticate := none }
      else
        .ok credentials

/-- A bcrypt hash as produced by `passlib`'s `pwd_context.hash`: symbolic
pairing of the hashed password with the salt (the salt argument makes the
source's nondeterministic salting explicit). -/
structure BcryptHash where
  password : String
  salt : Nat
deriving DecidableEq, Repr

/-- Embeds `get_password_hash` (src/app/utils/auth.py:24-25). -/
def get_password_hash (password : String) (salt : Nat) : BcryptHash :=
  { password := password, salt := salt }

/-- A Python exception escaping the handler (FastAPI answers 500); the
string is the exception class name. -/
inductive PyExn where
  | typeError
deriving DecidableEq, Repr

/-- Embeds `verify_password` (src/app/utils/auth.py:20-21), i.e.
`pwd_context.verify(plain_password, hashed_password)`.  passlib raises
`TypeError` ("hash must be unicode or bytes") when the stored hash is
`None`; otherwise it re-hashes with the embedded salt and compares. -/
def verify_password (plain_password : String) (hashed_password : Option BcryptHash) :
    Except PyExn Bool :=
  match hashed_password with
  | none => .error .typeError
  | some h => .ok (h.password = plain_password)

/-- Modelled from the spec: the `User` model (src/app/models/user.py is not
among the sources; the fields are reconstructed from the spec's User data
model in §3 and from the constructor calls and attribute reads in
src/app/routers/auth.py and src/app/utils/auth.py: unique numeric id,
unique email, optional display name, optional password hash, optional
external-provider subject id (`google_id`), optional avatar URI, active
flag, creation timestamp). -/
structure UserRec where
  id : Nat
  email : String
  full_name : Option String := none
  hashed_password : Option BcryptHash := none
  google_id : Option String := none
  avatar_url : Option String := none
  is_active : Bool := true
  created_at : Nat := 0
deriving DecidableEq, Repr

/-- The user table, in insertion order; `.first()` on a filtered query is
`List.find?`. -/
abbrev UserDB := List UserRec

/-- `db.query(User).filter(User.email == email).first()`. -/
def findUserByEmail (db : UserDB) (email : String) : Option UserRec :=
  List.find? (fun u => u.email = email) db

/-- Embeds `get_current_user` (src/app/utils/auth.py:55-64) together with
its `Depends(security)` parameter: run the `HTTPBearer` extraction, verify
the token, and look the decoded subject up by email; a missing user is the
401 `userNotFound401`. -/
def get_current_user (s : Settings) (now : Nat) (db : UserDB)
    (authorization : Option HeaderValue) : Except HTTPError UserRec :=
  match httpBearer authorization with
  | .error e => .error e
  | .ok credentials =>
      match verify_token s now credentials with
      | .error e => .error e
      | .ok email =>
          match findUserByEmail db email with
          | none => .error userNotFound401
          | some user => .ok user

/-- The body `{"access_token": ..., "token_type": "bearer"}` returned by
`login` (src/app/routers/auth.py:71). -/
structure TokenResponse where
  access_token : Jwt
  token_type : String
deriving DecidableEq, Repr

/-- The 401 raised by `login` on any credential mismatch
(src/app/routers/auth.py:61-65): one identical error for unknown email and
wrong password. -/
def invalidCredentials401 : HTTPError :=
  { status_code := 401, detail := "Incorrect email or password", www_authenticate := some "Bearer" }

/-- Outcome of a request handler: a response body, an `HTTPException`, or an
uncaught Python exception (which FastAPI converts to a 500 response). -/
inductive Outcome (α : Type) where
  | ok (body : α)
  | httpError (e : HTTPError)
  | exn (e : PyExn)
deriving DecidableEq, Repr

/-- Whether the outcome is an `HTTPException` with status 401. -/
def Outcome.is401 {α : Type} : Outcome α → Bool
  | .httpError e => e.status_code = 401
  | _ => false

/-- Embeds the `login` handler (src/app/routers/auth.py:56-71): look the
user up by email; `if not user or not verify_password(...)` raises the
single 401; on success issue a token for `user.email` with
`expires_delta = timedelta(minutes=settings.ACCESS_TOKEN_EXPIRE_MINUTES)`.
A `TypeError` escaping `verify_password` (stored hash `None`) is uncaught. -/
def login (s : Settings) (now : Nat) (db : UserDB) (email password : String) :
    Outcome TokenResponse :=
  match findUserByEmail db email with
  | none => .httpError invalidCredentials401
  | some user =>
      match verify_password password user.hashed_password with
      | .error e => .exn e
      | .ok false => .httpError invalidCredentials401
      | .ok true =>
          .ok { access_token :=
                  create_access_token s (some user.email)
                    (some (s.ACCESS_TOKEN_EXPIRE_MINUTES * 60)) now
                token_type := "bearer" }

/-- The provider identity claims (`token['userinfo']`) of the Google
callback; every claim may be absent (`user_info['email']` and
`user_info['sub']` raise `KeyError` when absent, `.get` calls return
`None`). -/
structure UserInfo where
  sub : Option String := none
  email : Option String := none
  name : Option String := none
  picture : Option String := none
deriving DecidableEq, Repr

/-- Result of `oauth.google.authorize_access_token(request)`: either it
raises (missing/invalid authorization code or provider error response,
`failure` carries `str(e)`), or it returns a token dict whose `userinfo`
entry may be absent. -/
inductive OAuthExchange where
  | failure (msg : String)
  | success (userinfo : Option UserInfo)
deriving DecidableEq, Repr

/-- The 400 every failure of the Google callback is converted to by its
`except Exception` clause (src/app/routers/auth.py:121-125):
`detail = "Google authentication failed: " + str(e)`. -/
def googleAuthFailed (msg : String) : HTTPError :=
  { status_code := 400, detail := "Google authentication failed: " ++ msg, www_authenticate := none }

/-- The response body of a successful Google callback
(src/app/routers/auth.py:119). -/
structure CallbackResponse where
  access_token : Jwt
  token_type : String
  user : UserRec
deriving DecidableEq, Repr

/-- Autoincrement primary key: one more than the largest id in the table. -/
def nextUserId (db : UserDB) : Nat :=
  (db.map (fun u => u.id)).foldr max 0 + 1

/-- `db.commit()` after mutating a loaded user row: the UPDATE is keyed on
the primary key, so the first row with that id is replaced. -/
def commitUserRow : UserDB → Nat → UserRec → UserDB
  | [], _, _ => []
  | u :: us, uid, u' => if u.id = uid then u' :: us else u :: commitUserRow us uid u'

/-- Python truthiness of `user.google_id` in `if not user.google_id:`
(src/app/routers/auth.py:107): `None` and the empty string are falsy. -/
def googleIdFalsy : Option String → Bool
  | none => true
  | some g => g.data.isEmpty

/-- Embeds the `google_callback` handler (src/app/routers/auth.py:78-125).
The whole body runs inside `try`; any exception — the provider exchange
raising, the explicit 400 for a missing `userinfo` (whose `str(e)` is
`"400: Failed to get user info from Google"`), or a `KeyError` on a missing
`email`/`sub` claim (whose `str(e)` is `"'email'"`/`"'sub'"`) — is
re-raised as the single `googleAuthFailed` 400.  On the happy path the user
is looked up by the claimed email and created (no password hash,
`google_id` = provider subject, active) or linked (`google_id` falsy:
set `google_id` and `avatar_url`) or left untouched, then a token for
`user.email` is issued with the configured ttl.  Returns the response
together with the user table after the request. -/
def google_callback (s : Settings) (now : Nat) (db : UserDB) (exch : OAuthExchange) :
    Except HTTPError CallbackResponse × UserDB :=
  match exch with
  | .failure msg => (.error (googleAuthFailed msg), db)
  | .success none =>
      (.error (googleAuthFailed "400: Failed to get user info from Google"), db)
  | .success (some user_info) =>
      match user_info.email with
      | none => (.error (googleAuthFailed "'email'"), db)
      | some email =>
          match findUserByEmail db email with
          | none =>
              match user_info.sub with
              | none => (.error (googleAuthFailed "'sub'"), db)
              | some sub =>
                  let user : UserRec :=
                    { id := nextUserId db
                      email := email
                      full_name := user_info.name
                      hashed_password := none
                      google_id := some sub
                      avatar_url := user_info.picture
                      is_active := true
                      created_at := now }
                  (.ok { access_token :=
                           create_access_token s (some user.email)
                             (some (s.ACCESS_TOKEN_EXPIRE_MINUTES * 60)) now
                         token_type := "bearer"
                         user := user },
                   db ++ [user])
          | some user =>
              if googleIdFalsy user.google_id then
                match user_info.sub with
                | none => (.error (googleAuthFailed "'sub'"), db)
                | some sub =>
                    let user' : UserRec :=
                      { user with google_id := some sub, avatar_url := user_info.picture }
                    (.ok { access_token :=
                             create_access_token s (some user'.email)
                               (some (s.ACCESS_TOKEN_EXPIRE_MINUTES * 60)) now
                           token_type := "bearer"
                           user := user' },
                     commitUserRow db user.id user')
              else
                (.ok { access_token :=
                         create_access_token s (some user.email)
                           (some (s.ACCESS_TOKEN_EXPIRE_MINUTES * 60)) now
                       token_type := "bearer"
                       user := user },
                 db)

/-- The `TaskStatus` enum (src/app/schemas/task.py:11-15); the task table's
`status` column stores the same four strings. -/
inductive TaskStatus where
  | pending
  | in_progress
  | completed
  | cancelled
deriving DecidableEq, Repr

/-- A row of the `tasks` table (src/app/models/task.py).  Columns that are
nullable, or that a partial update can set to JSON `null` through
`setattr`, are `Option`s; `id` and `user_id` are the primary and foreign
keys. -/
structure TaskRec where
  id : Nat
  title : Option String
  description : Option String := none
  priority : Option String := some "medium"
  status : Option TaskStatus := some .pending
  due_date : Option Nat := none
  reminder_time : Option Nat := none
  is_completed : Option Bool := some false
  user_id : Nat
  created_at : Nat := 0
  updated_at : Option Nat := none
  completed_at : Option Nat := none
deriving DecidableEq, Repr

/-- The `TaskUpdate` schema (src/app/schemas/task.py:27-34).  Every field is
optional and unset by default; the outer `Option` is key presence under
`model_dump(exclude_unset=True)`, the inner one the value (which may be
JSON `null`). -/
structure TaskUpdate where
  title : Option (Option String) := none
  description : Option (Option String) := none
  priority : Option (Option String) := none
  status : Option (Option TaskStatus) := none
  due_date : Option (Option Nat) := none
  reminder_time : Option (Option Nat) := none
  is_completed : Option (Option Bool) := none
deriving DecidableEq, Repr

/-- The `update_data` dict built by `TaskService.update_task`: the dumped
payload plus the `completed_at` key the status/is_completed logic may
insert. -/
structure UpdateData where
  title : Option (Option String) := none
  description : Option (Option String) := none
  priority : Option (Option String) := none
  status : Option (Option TaskStatus) := none
  due_date : Option (Option Nat) := none
  reminder_time : Option (Option Nat) := none
  is_completed : Option (Option Bool) := none
  completed_at : Option (Option Nat) := none
deriving DecidableEq, Repr

/-- `task_update.model_dump(exclude_unset=True)` as the initial
`update_data` dict. -/
def TaskUpdate.dump (u : TaskUpdate) : UpdateData :=
  { title := u.title
    description := u.description
    priority := u.priority
    status := u.status
    due_date := u.due_date
    reminder_time := u.reminder_time
    is_completed := u.is_completed }

/-- The `# Handle status change logic` block of `TaskService.update_task`
(src/app/services/task_service.py:85-92): if the `status` key is present
and its value is `completed`, force `is_completed = True` and stamp
`completed_at`; else if the stored status is `completed` and the new value
differs, force `is_completed = False` and clear `completed_at`.
(`db_task` is the row as loaded, not yet mutated.) -/
def statusChangeLogic (db_task : TaskRec) (d : UpdateData) (now : Nat) : UpdateData :=
  match d.status with
  | none => d
  | some new_status =>
      if new_status = some TaskStatus.completed then
        { d with is_completed := some (some true), completed_at := some (some now) }
      else if db_task.status = some TaskStatus.completed ∧ new_status ≠ some TaskStatus.completed then
        { d with is_completed := some (some false), completed_at := some none }
      else
        d

/-- The `# Handle is_completed change` block of `TaskService.update_task`
(src/app/services/task_service.py:95-102): if the `is_completed` key is
present in `update_data` (possibly inserted by the status block), a truthy
value forces `status = completed` and stamps `completed_at`; a falsy value
(`False` or `null`) clears `completed_at` and, when the stored status is
`completed`, resets `status` to `pending`. -/
def isCompletedChangeLogic (db_task : TaskRec) (d : UpdateData) (now : Nat) : UpdateData :=
  match d.is_completed with
  | none => d
  | some v =>
      if v = some true then
        { d with status := some (some TaskStatus.completed), completed_at := some (some now) }
      else
        let d' := if db_task.status = some TaskStatus.completed then
                    { d with status := some (some TaskStatus.pending) }
                  else d
        { d' with completed_at := some none }

/-- The `setattr` loop of `TaskService.update_task`
(src/app/services/task_service.py:105-106): assign every key present in
`update_data`. -/
def applyUpdateData (t : TaskRec) (d : UpdateData) : TaskRec :=
  { t with
    title := d.title.getD t.title
    description := d.description.getD t.description
    priority := d.priority.getD t.priority
    status := d.status.getD t.status
    due_date := d.due_date.getD t.due_date
    reminder_time := d.reminder_time.getD t.reminder_time
    is_completed := d.is_completed.getD t.is_completed
    completed_at := d.completed_at.getD t.completed_at }

/-- The tasks table, in insertion order. -/
abbrev TaskDB := List TaskRec

/-- `db.commit()` after mutating a loaded task row: the UPDATE is keyed on
the primary key, so the first row with that id is replaced. -/
def commitTaskRow : TaskDB → Nat → TaskRec → TaskDB
  | [], _, _ => []
  | t :: ts, tid, t' => if t.id = tid then t' :: ts else t :: commitTaskRow ts tid t'

/-- `db.delete(row); db.commit()`: the DELETE is keyed on the primary key. -/
def deleteTaskRow : TaskDB → Nat → TaskDB
  | [], _ => []
  | t :: ts, tid => if t.id = tid then ts else t :: deleteTaskRow ts tid

/-- Python truthiness of the nullable `is_completed` column in
`if db_task.is_completed:`: only a stored `True` is truthy. -/
def truthy (b : Option Bool) : Bool :=
  b.getD false

namespace TaskService

/-- Embeds `TaskService.get_task_by_id`
(src/app/services/task_service.py:29-34): the compound filter
`and_(Task.id == task_id, Task.user_id == user_id)` followed by
`.first()`. -/
def get_task_by_id (db : TaskDB) (task_id user_id : Nat) : Option TaskRec :=
  List.find? (fun t => t.id = task_id ∧ t.user_id = user_id) db

/-- The per-row effect of `TaskService.update_task` once the row was found:
dump the payload, run both derived-state blocks, apply every present key,
and commit (the `updated_at` column has `onupdate=func.now()`, so a commit
that issued an UPDATE — i.e. at least one `setattr` ran — refreshes it). -/
def updateTaskFields (t : TaskRec) (u : TaskUpdate) (now : Nat) : TaskRec :=
  let d := isCompletedChangeLogic t (statusChangeLogic t u.dump now) now
  let t' := applyUpdateData t d
  if d = ({} : UpdateData) then t' else { t' with updated_at := some now }

/-- Embeds `TaskService.update_task`
(src/app/services/task_service.py:75-110): `None` and an unchanged table
when the compound filter misses, otherwise the updated row and the table
with that row replaced. -/
def update_task (db : TaskDB) (task_id : Nat) (task_update : TaskUpdate)
    (user_id : Nat) (now : Nat) : Option TaskRec × TaskDB :=
  match get_task_by_id db task_id user_id with
  | none => (none, db)
  | some db_task =>
      let t' := updateTaskFields db_task task_update now
      (some t', commitTaskRow db db_task.id t')

/-- Embeds `TaskService.delete_task`
(src/app/services/task_service.py:112-121). -/
def delete_task (db : TaskDB) (task_id user_id : Nat) : Bool × TaskDB :=
  match get_task_by_id db task_id user_id with
  | none => (false, db)
  | some db_task => (true, deleteTaskRow db db_task.id)

/-- The field changes `TaskService.toggle_task_completion` makes on the
loaded row (src/app/services/task_service.py:130-137). -/
def toggleFields (t : TaskRec) (now : Nat) : TaskRec :=
  if truthy t.is_completed then
    { t with is_completed := some false, status := some TaskStatus.pending, completed_at := none }
  else
    { t with is_completed := some true, status := some TaskStatus.completed, completed_at := some now }

/-- Embeds `TaskService.toggle_task_completion`
(src/app/services/task_service.py:123-141); the commit refreshes
`updated_at`. -/
def toggle_task_completion (db : TaskDB) (task_id user_id : Nat) (now : Nat) :
    Option TaskRec × TaskDB :=
  match get_task_by_id db task_id user_id with
  | none => (none, db)
  | some db_task =>
      let t' := { toggleFields db_task now with updated_at := some now }
      (some t', commitTaskRow db db_task.id t')

end TaskService

/-- The 404 raised by every task endpoint on a lookup miss
(src/app/routers/tasks.py). -/
def taskNotFound404 : HTTPError :=
  { status_code := 404, detail := "Task tidak ditemukan", www_authenticate := none }

/-- The `TaskResponse` schema (src/app/schemas/task.py:48-50). -/
structure TaskResponseBody where
  message : String
  task : Option TaskRec
deriving DecidableEq, Repr

namespace Tasks

/-- Embeds the `GET /tasks/{task_id}` handler (src/app/routers/tasks.py:48-61);
`current_user.id` is passed as `user_id`.  An ORM row object is always
truthy, so `if not task` is exactly the `None` check. -/
def get_task (db : TaskDB) (task_id user_id : Nat) : Except HTTPError TaskRec :=
  match TaskService.get_task_by_id db task_id user_id with
  | none => .error taskNotFound404
  | some task => .ok task

/-- Embeds the `PUT /tasks/{task_id}` handler (src/app/routers/tasks.py:63-77). -/
def update_task (db : TaskDB) (task_id : Nat) (task_update : TaskUpdate)
    (user_id : Nat) (now : Nat) : Except HTTPError TaskResponseBody × TaskDB :=
  match TaskService.update_task db task_id task_update user_id now with
  | (none, db') => (.error taskNotFound404, db')
  | (some updated_task, db') =>
      (.ok { message := "Task berhasil diupdate", task := some updated_task }, db')

/-- Embeds the `DELETE /tasks/{task_id}` handler
(src/app/routers/tasks.py:79-92); the success body is
`{"message": "Task berhasil dihapus"}`. -/
def delete_task (db : TaskDB) (task_id user_id : Nat) : Except HTTPError String × TaskDB :=
  match TaskService.delete_task db task_id user_id with
  | (false, db') => (.error taskNotFound404, db')
  | (true, db') => (.ok "Task berhasil dihapus", db')

/-- Embeds the `PATCH /tasks/{task_id}/toggle` handler
(src/app/routers/tasks.py:94-109). -/
def toggle_task_completion (db : TaskDB) (task_id user_id : Nat) (now : Nat) :
    Except HTTPError TaskResponseBody × TaskDB :=
  match TaskService.toggle_task_completion db task_id user_id now with
  | (none, db') => (.error taskNotFound404, db')
  | (some task, db') =>
      let status_msg := if truthy task.is_completed then "selesai" else "belum selesai"
      (.ok { message := "Task berhasil diubah menjadi " ++ status_msg, task := some task }, db')

end Tasks

/-- A row of the `schedules` table (src/app/models/schedule.py); nullable
columns are `Option`s, and `start_time` (declared `nullable=False` but
assignable to `null` by a partial update) is optional for the same reason
as `TaskRec.title`. -/
structure ScheduleRec where
  id : Nat
  title : Option String
  description : Option String := none
  location : Option String := none
  start_time : Option Nat
  end_time : Option Nat := none
  reminder_time : Option Nat := none
  status : Option String := some "scheduled"
  schedule_type : Option String := some "meeting"
  is_recurring : Option Bool := some false
  recurring_pattern : Option String := none
  user_id : Nat
  created_at : Nat := 0
  updated_at : Option Nat := none
deriving DecidableEq, Repr

/-- The `ScheduleUpdate` schema (src/app/schemas/schedule.py:20-30), with
the same key-presence encoding as `TaskUpdate`. -/
structure ScheduleUpdate where
  title : Option (Option String) := none
  description : Option (Option String) := none
  location : Option (Option String) := none
  start_time : Option (Option Nat) := none
  end_time : Option (Option Nat) := none
  reminder_time : Option (Option Nat) := none
  status : Option (Option String) := none
  schedule_type : Option (Option String) := none
  is_recurring : Option (Option Bool) := none
  recurring_pattern : Option (Option String) := none
deriving DecidableEq, Repr

/-- The `setattr` loop of `update_schedule`
(src/app/routers/schedules.py:96-98) over
`schedule_update.dict(exclude_unset=True)`. -/
def applyScheduleUpdate (sc : ScheduleRec) (u : ScheduleUpdate) : ScheduleRec :=
  { sc with
    title := u.title.getD sc.title
    description := u.description.getD sc.description
    location := u.location.getD sc.location
    start_time := u.start_time.getD sc.start_time
    end_time := u.end_time.getD sc.end_time
    reminder_time := u.reminder_time.getD sc.reminder_time
    status := u.status.getD sc.status
    schedule_type := u.schedule_type.getD sc.schedule_type
    is_recurring := u.is_recurring.getD sc.is_recurring
    recurring_pattern := u.recurring_pattern.getD sc.recurring_pattern }

/-- The schedules table, in insertion order. -/
abbrev ScheduleDB := List ScheduleRec

/-- `db.commit()` after mutating a loaded schedule row (UPDATE keyed on the
primary key). -/
def commitScheduleRow : ScheduleDB → Nat → ScheduleRec → ScheduleDB
  | [], _, _ => []
  | sc :: scs, sid, sc' => if sc.id = sid then sc' :: scs else sc :: commitScheduleRow scs sid sc'

/-- `db.delete(schedule); db.commit()` (DELETE keyed on the primary key). -/
def deleteScheduleRow : ScheduleDB → Nat → ScheduleDB
  | [], _ => []
  | sc :: scs, sid => if sc.id = sid then scs else sc :: deleteScheduleRow scs sid

/-- The 404 raised by every schedule endpoint on a lookup miss
(src/app/routers/schedules.py). -/
def scheduleNotFound404 : HTTPError :=
  { status_code := 404, detail := "Schedule not found", www_authenticate := none }

namespace Schedules

/-- The compound filter
`Schedule.id == schedule_id, Schedule.user_id == current_user.id` followed
by `.first()`, shared by the get/update/delete schedule handlers. -/
def findSchedule (db : ScheduleDB) (schedule_id user_id : Nat) : Option ScheduleRec :=
  List.find? (fun sc => sc.id = schedule_id ∧ sc.user_id = user_id) db

/-- Embeds the `GET /schedules/{schedule_id}` handler
(src/app/routers/schedules.py:62-77). -/
def get_schedule (db : ScheduleDB) (schedule_id user_id : Nat) :
    Except HTTPError ScheduleRec :=
  match findSchedule db schedule_id user_id with
  | none => .error scheduleNotFound404
  | some schedule => .ok schedule

/-- Embeds the `PUT /schedules/{schedule_id}` handler
(src/app/routers/schedules.py:79-102); a commit that issued an UPDATE
(at least one `setattr` ran) refreshes the `onupdate` column
`updated_at`. -/
def update_schedule (db : ScheduleDB) (schedule_id : Nat) (schedule_update : ScheduleUpdate)
    (user_id : Nat) (now : Nat) : Except HTTPError ScheduleRec × ScheduleDB :=
  match findSchedule db schedule_id user_id with
  | none => (.error scheduleNotFound404, db)
  | some schedule =>
      let sc' := applyScheduleUpdate schedule schedule_update
      let sc'' := if schedule_update = ({} : ScheduleUpdate) then sc'
                  else { sc' with updated_at := some now }
      (.ok sc'', commitScheduleRow db schedule.id sc'')

/-- Embeds the `DELETE /schedules/{schedule_id}` handler
(src/app/routers/schedules.py:104-121); the success body is
`{"message": "Schedule deleted successfully"}`. -/
def delete_schedule (db : ScheduleDB) (schedule_id user_id : Nat) :
    Except HTTPError String × ScheduleDB :=
  match findSchedule db schedule_id user_id with
  | none => (.error scheduleNotFound404, db)
  | some schedule =>
      (.ok "Schedule deleted successfully", deleteScheduleRow db schedule.id)

end Schedules

/-! ## Theorems -/

/-- C3 counterexample: a token issued with an explicit ttl of zero —
`timedelta(0)` is falsy, so `create_access_token` falls back to the
15-minute default — still verifies successfully at time 1, although
1 > issued_at + ttl = 0; verification does not fail with `InvalidToken`
once the current time exceeds issued_at + ttl. -/
theorem token_zero_ttl_counterexample :
    verify_token { SECRET_KEY := "k" } 1
        (.jwt (create_access_token { SECRET_KEY := "k" } (some "alice@example.com") (some 0) 0))
      = .ok "alice@example.com" ∧
    (create_access_token { SECRET_KEY := "k" } (some "alice@example.com") (some 0) 0).exp = 900 ∧
    (0 + 0 : Nat) < 1 ∧
    ¬ ((Except.ok "alice@example.com" : Except HTTPError String)
        = .error tokenInvalid401) := by
  exact ⟨rfl, rfl, by decide, fun hc => nomatch hc⟩

/-- C3 (amended): for every identity and every positive ttl, verifying a
token immediately after issuing it with that identity returns that
identity, and once the current time exceeds issued_at + ttl, verifying the
same token fails with the `InvalidToken` outcome (the 401
`tokenInvalid401`); a zero ttl is the exception — `timedelta(0)` is falsy
in `expires_delta or timedelta(minutes=15)`, so the token's expiry is
issued_at + 15 minutes and it remains valid until then. -/
theorem token_roundtrip_and_expiry (s : Settings) (identity : String)
    (ttl now later : Nat) (httl : 0 < ttl) (h : now + ttl < later) :
    verify_token s now (.jwt (create_access_token s (some identity) (some ttl) now))
      = .ok identity ∧
    verify_token s later (.jwt (create_access_token s (some identity) (some ttl) now))
      = .error tokenInvalid401 ∧
    (create_access_token s (some identity) (some 0) now).exp = now + 15 * 60 := by
  have he : ttlOrDefault (some ttl) = ttl := by
    simp [ttlOrDefault, Nat.pos_iff_ne_zero.mp httl]
  have h1 : ¬ now + ttl < now := by omega
  refine ⟨?_, ?_, rfl⟩
  · simp [verify_token, jwtDecode, create_access_token, he, h1]
  · simp [verify_token, jwtDecode, create_access_token, he, h]

/-- Witness for `token_roundtrip_and_expiry` at a concrete identity, a
positive ttl of 1800s and a concrete clock. -/
theorem token_roundtrip_and_expiry_witness :
    verify_token { SECRET_KEY := "k" } 0
        (.jwt (create_access_token { SECRET_KEY := "k" } (some "alice@example.com") (some 1800) 0))
      = .ok "alice@example.com" ∧
    verify_token { SECRET_KEY := "k" } 1801
        (.jwt (create_access_token { SECRET_KEY := "k" } (some "alice@example.com") (some 1800) 0))
      = .error tokenInvalid401 ∧
    (create_access_token { SECRET_KEY := "k" } (some "alice@example.com") (some 0) 0).exp
      = 0 + 15 * 60 :=
  token_roundtrip_and_expiry { SECRET_KEY := "k" } "alice@example.com" 1800 0 1801
    (by decide) (by decide)

/-- C4 counterexample: with the configured ttl at its default of 30
minutes, a token issued with no explicit `expires_delta` embeds expiry
issued_at + 15 minutes (the hard-coded fallback of `create_access_token`),
not issued_at + the configured 30 minutes. -/
theorem token_default_ttl_counterexample :
    (create_access_token { SECRET_KEY := "k" } (some "alice@example.com") none 0).exp = 900 ∧
    ({ SECRET_KEY := "k" } : Settings).ACCESS_TOKEN_EXPIRE_MINUTES * 60 = 1800 ∧
    (900 : Nat) ≠ 1800 := by
  refine ⟨rfl, rfl, by decide⟩

/-- C4 (amended): a token issued with an explicit nonzero ttl embeds
expiry equal to issuance time plus that ttl — and the repository's callers
always pass `timedelta(minutes=settings.ACCESS_TOKEN_EXPIRE_MINUTES)`,
which is nonzero for any nonzero configured minutes — but when no explicit
ttl is passed, or when the explicit ttl is the falsy `timedelta(0)`, the
expiry is issuance time plus a fixed 15-minute fallback, not the
configured ttl. -/
theorem token_expiry_formula (s : Settings) (data_sub : Option String)
    (delta now : Nat) (hd : delta ≠ 0) (hm : s.ACCESS_TOKEN_EXPIRE_MINUTES ≠ 0) :
    (create_access_token s data_sub (some delta) now).exp = now + delta ∧
    (create_access_token s data_sub (some (s.ACCESS_TOKEN_EXPIRE_MINUTES * 60)) now).exp
      = now + s.ACCESS_TOKEN_EXPIRE_MINUTES * 60 ∧
    (create_access_token s data_sub none now).exp = now + 15 * 60 ∧
    (create_access_token s data_sub (some 0) now).exp = now + 15 * 60 := by
  have hm60 : s.ACCESS_TOKEN_EXPIRE_MINUTES * 60 ≠ 0 := Nat.mul_ne_zero hm (by decide)
  refine ⟨?_, ?_, rfl, rfl⟩
  · simp [create_access_token, ttlOrDefault, hd]
  · simp [create_access_token, ttlOrDefault, hm60]

/-- Witness for `token_expiry_formula` at the default 30-minute
configuration, an explicit one-minute ttl and a concrete clock. -/
theorem token_expiry_formula_witness :
    (create_access_token { SECRET_KEY := "k" } (some "alice@example.com") (some 60) 0).exp
      = 0 + 60 ∧
    (create_access_token { SECRET_KEY := "k" } (some "alice@example.com")
        (some (({ SECRET_KEY := "k" } : Settings).ACCESS_TOKEN_EXPIRE_MINUTES * 60)) 0).exp
      = 0 + ({ SECRET_KEY := "k" } : Settings).ACCESS_TOKEN_EXPIRE_MINUTES * 60 ∧
    (create_access_token { SECRET_KEY := "k" } (some "alice@example.com") none 0).exp
      = 0 + 15 * 60 ∧
    (create_access_token { SECRET_KEY := "k" } (some "alice@example.com") (some 0) 0).exp
      = 0 + 15 * 60 :=
  token_expiry_formula { SECRET_KEY := "k" } (some "alice@example.com") 60 0
    (by decide) (by decide)

/-- C6: every failing external-identity callback — provider exchange
failure, absent `userinfo`, or absent email claim — produces a 400
(`googleAuthFailed`) and leaves the user table exactly as it was. -/
theorem google_callback_failure_no_write (s : Settings) (now : Nat) (db : UserDB)
    (msg : String) (sb nm pc : Option String) :
    google_callback s now db (.failure msg) = (.error (googleAuthFailed msg), db) ∧
    google_callback s now db (.success none)
      = (.error (googleAuthFailed "400: Failed to get user info from Google"), db) ∧
    google_callback s now db
        (.success (some { sub := sb, email := none, name := nm, picture := pc }))
      = (.error (googleAuthFailed "'email'"), db) ∧
    (googleAuthFailed msg).status_code = 400 :=
  ⟨rfl, rfl, rfl, rfl⟩

/-- C2 counterexample: a request with no authorization header is answered
403 "Not authenticated" without a `WWW-Authenticate` header (by the
`HTTPBearer` dependency), while a request with a bearer token that fails
verification is answered 401 with `WWW-Authenticate: Bearer` — the two
failure causes are distinguishable and the former is not the claimed 401
outcome. -/
theorem auth_gate_counterexample :
    get_current_user { SECRET_KEY := "k" } 0 [] none
      = .error { status_code := 403, detail := "Not authenticated", www_authenticate := none } ∧
    get_current_user { SECRET_KEY := "k" } 0 []
        (some (.withScheme "Bearer" (.malformed "not-a-jwt")))
      = .error tokenInvalid401 ∧
    ({ status_code := 403, detail := "Not authenticated", www_authenticate := none } : HTTPError)
      ≠ tokenInvalid401 := by
  refine ⟨rfl, rfl, by decide⟩

/-- C2 (amended): the authorization gate's failure outcomes split in two.
A missing header, a header with no credentials part, or a non-bearer
scheme are rejected by the `HTTPBearer` dependency with 403 (detail
"Not authenticated" or "Invalid authentication credentials") and no
`WWW-Authenticate` header.  Failures past extraction are 401 with
`WWW-Authenticate: Bearer`: malformed or expired tokens and tokens without
a subject share the detail "Token tidak valid", while a subject that
resolves to no stored user yields the (distinguishable) detail
"User tidak ditemukan". -/
theorem auth_gate_outcomes (s : Settings) (now : Nat) (db : UserDB)
    (text scheme raw : String) (t : TokenStr) (jExp jNoSub jLive : Jwt) (email : String)
    (hscheme1 : scheme.data.isEmpty = false) (hscheme2 : ¬ pyLower scheme = "bearer")
    (ht : t.strEmpty = false)
    (hraw : raw.data.isEmpty = false)
    (hExp : jExp.exp < now)
    (hk2 : jNoSub.key = s.SECRET_KEY) (ha2 : jNoSub.alg = s.ALGORITHM)
    (he2 : ¬ jNoSub.exp < now) (hsub2 : jNoSub.sub = none)
    (hk3 : jLive.key = s.SECRET_KEY) (ha3 : jLive.alg = s.ALGORITHM)
    (he3 : ¬ jLive.exp < now) (hsub3 : jLive.sub = some email)
    (hmiss : findUserByEmail db email = none) :
    get_current_user s now db none
      = .error { status_code := 403, detail := "Not authenticated", www_authenticate := none } ∧
    get_current_user s now db (some (.noSpace text))
      = .error { status_code := 403, detail := "Not authenticated", www_authenticate := none } ∧
    get_current_user s now db (some (.withScheme scheme t))
      = .error { status_code := 403, detail := "Invalid authentication credentials", www_authenticate := none } ∧
    get_current_user s now db (some (.withScheme "Bearer" (.malformed raw)))
      = .error tokenInvalid401 ∧
    get_current_user s now db (some (.withScheme "Bearer" (.jwt jExp)))
      = .error tokenInvalid401 ∧
    get_current_user s now db (some (.withScheme "Bearer" (.jwt jNoSub)))
      = .error tokenInvalid401 ∧
    get_current_user s now db (some (.withScheme "Bearer" (.jwt jLive)))
      = .error userNotFound401 ∧
    tokenInvalid401.status_code = 401 ∧ tokenInvalid401.www_authenticate = some "Bearer" ∧
    userNotFound401.status_code = 401 ∧ userNotFound401.www_authenticate = some "Bearer" := by
  have hbearer : pyLower "Bearer" = "bearer" := by decide
  have hbe : ("Bearer" : String).data.isEmpty = false := by decide
  refine ⟨rfl, rfl, ?_, ?_, ?_, ?_, ?_, rfl, rfl, rfl, rfl⟩
  · simp [get_current_user, httpBearer, hscheme1, hscheme2, ht]
  · simp [get_current_user, httpBearer, TokenStr.strEmpty, verify_token, jwtDecode,
      hbearer, hbe, hraw]
  · simp [get_current_user, httpBearer, TokenStr.strEmpty, verify_token, jwtDecode,
      hbearer, hbe, hExp]
  · simp [get_current_user, httpBearer, TokenStr.strEmpty, verify_token, jwtDecode,
      hbearer, hbe, hk2, ha2, he2, hsub2]
  · simp [get_current_user, httpBearer, TokenStr.strEmpty, verify_token, jwtDecode,
      hbearer, hbe, hk3, ha3, he3, hsub3, hmiss]

/-- Witness for `auth_gate_outcomes` at a concrete configuration, clock,
empty user table, scheme `"Basic"`, and concrete expired / subject-less /
unresolvable tokens. -/
theorem auth_gate_outcomes_witness :
    get_current_user { SECRET_KEY := "k" } 100 [] none
      = .error { status_code := 403, detail := "Not authenticated", www_authenticate := none } ∧
    get_current_user { SECRET_KEY := "k" } 100 [] (some (.noSpace "lone-token"))
      = .error { status_code := 403, detail := "Not authenticated", www_authenticate := none } ∧
    get_current_user { SECRET_KEY := "k" } 100 [] (some (.withScheme "Basic" (.malformed "zzz")))
      = .error { status_code := 403, detail := "Invalid authentication credentials", www_authenticate := none } ∧
    get_current_user { SECRET_KEY := "k" } 100 [] (some (.withScheme "Bearer" (.malformed "xx")))
      = .error tokenInvalid401 ∧
    get_current_user { SECRET_KEY := "k" } 100 []
        (some (.withScheme "Bearer" (.jwt { sub := some "a@b", exp := 10, key := "k", alg := "HS256" })))
      = .error tokenInvalid401 ∧
    get_current_user { SECRET_KEY := "k" } 100 []
        (some (.withScheme "Bearer" (.jwt { sub := none, exp := 200, key := "k", alg := "HS256" })))
      = .error tokenInvalid401 ∧
    get_current_user { SECRET_KEY := "k" } 100 []
        (some (.withScheme "Bearer" (.jwt { sub := some "a@b", exp := 200, key := "k", alg := "HS256" })))
      = .error userNotFound401 ∧
    tokenInvalid401.status_code = 401 ∧ tokenInvalid401.www_authenticate = some "Bearer" ∧
    userNotFound401.status_code = 401 ∧ userNotFound401.www_authenticate = some "Bearer" :=
  auth_gate_outcomes { SECRET_KEY := "k" } 100 [] "lone-token" "Basic" "xx"
    (.malformed "zzz")
    { sub := some "a@b", exp := 10, key := "k", alg := "HS256" }
    { sub := none, exp := 200, key := "k", alg := "HS256" }
    { sub := some "a@b", exp := 200, key := "k", alg := "HS256" } "a@b"
    (by decide) (by decide) (by decide) (by decide) (by decide)
    rfl rfl (by decide) rfl rfl rfl (by decide) rfl rfl

/-- The status code of a handler outcome, when it is an `HTTPException`. -/
def errStatus {α : Type} : Except HTTPError α → Option Nat
  | .error e => some e.status_code
  | .ok _ => none

/-- C1: when no task (resp. schedule) row carries both the requested id and
the acting user's id — whether the id belongs to another user or does not
exist at all — every read, update, delete and toggle-completion endpoint
answers the identical 404 `taskNotFound404` (resp. `scheduleNotFound404`)
and leaves the table unchanged; and on arbitrary inputs these endpoints
never produce any error status other than 404 (in particular never 403). -/
theorem ownership_scoping (tdb tdb2 : TaskDB) (sdb sdb2 : ScheduleDB)
    (task_id schedule_id user_id tid2 sid2 uid2 now now2 : Nat)
    (u u2 : TaskUpdate) (su su2 : ScheduleUpdate)
    (ht : ∀ t ∈ tdb, ¬ (t.id = task_id ∧ t.user_id = user_id))
    (hs : ∀ sc ∈ sdb, ¬ (sc.id = schedule_id ∧ sc.user_id = user_id)) :
    Tasks.get_task tdb task_id user_id = .error taskNotFound404 ∧
    Tasks.update_task tdb task_id u user_id now = (.error taskNotFound404, tdb) ∧
    Tasks.delete_task tdb task_id user_id = (.error taskNotFound404, tdb) ∧
    Tasks.toggle_task_completion tdb task_id user_id now = (.error taskNotFound404, tdb) ∧
    Schedules.get_schedule sdb schedule_id user_id = .error scheduleNotFound404 ∧
    Schedules.update_schedule sdb schedule_id su user_id now = (.error scheduleNotFound404, sdb) ∧
    Schedules.delete_schedule sdb schedule_id user_id = (.error scheduleNotFound404, sdb) ∧
    (errStatus (Tasks.get_task tdb2 tid2 uid2) = none ∨
      errStatus (Tasks.get_task tdb2 tid2 uid2) = some 404) ∧
    (errStatus (Tasks.update_task tdb2 tid2 u2 uid2 now2).1 = none ∨
      errStatus (Tasks.update_task tdb2 tid2 u2 uid2 now2).1 = some 404) ∧
    (errStatus (Tasks.delete_task tdb2 tid2 uid2).1 = none ∨
      errStatus (Tasks.delete_task tdb2 tid2 uid2).1 = some 404) ∧
    (errStatus (Tasks.toggle_task_completion tdb2 tid2 uid2 now2).1 = none ∨
      errStatus (Tasks.toggle_task_completion tdb2 tid2 uid2 now2).1 = some 404) ∧
    (errStatus (Schedules.get_schedule sdb2 sid2 uid2) = none ∨
      errStatus (Schedules.get_schedule sdb2 sid2 uid2) = some 404) ∧
    (errStatus (Schedules.update_schedule sdb2 sid2 su2 uid2 now2).1 = none ∨
      errStatus (Schedules.update_schedule sdb2 sid2 su2 uid2 now2).1 = some 404) ∧
    (errStatus (Schedules.delete_schedule sdb2 sid2 uid2).1 = none ∨
      errStatus (Schedules.delete_schedule sdb2 sid2 uid2).1 = some 404) := by
  have hfT : TaskService.get_task_by_id tdb task_id user_id = none := by
    rw [TaskService.get_task_by_id, List.find?_eq_none]
    intro t htm
    simpa using ht t htm
  have hfS : Schedules.findSchedule sdb schedule_id user_id = none := by
    rw [Schedules.findSchedule, List.find?_eq_none]
    intro sc hsm
    simpa using hs sc hsm
  refine ⟨?_, ?_, ?_, ?_, ?_, ?_, ?_, ?_, ?_, ?_, ?_, ?_, ?_, ?_⟩
  · simp [Tasks.get_task, hfT]
  · simp [Tasks.update_task, TaskService.update_task, hfT]
  · simp [Tasks.delete_task, TaskService.delete_task, hfT]
  · simp [Tasks.toggle_task_completion, TaskService.toggle_task_completion, hfT]
  · simp [Schedules.get_schedule, hfS]
  · simp [Schedules.update_schedule, hfS]
  · simp [Schedules.delete_schedule, hfS]
  · cases h : TaskService.get_task_by_id tdb2 tid2 uid2 <;>
      simp [Tasks.get_task, h, errStatus, taskNotFound404]
  · cases h : TaskService.get_task_by_id tdb2 tid2 uid2 <;>
      simp [Tasks.update_task, TaskService.update_task, h, errStatus, taskNotFound404]
  · cases h : TaskService.get_task_by_id tdb2 tid2 uid2 <;>
      simp [Tasks.delete_task, TaskService.delete_task, h, errStatus, taskNotFound404]
  · cases h : TaskService.get_task_by_id tdb2 tid2 uid2 <;>
      simp [Tasks.toggle_task_completion, TaskService.toggle_task_completion, h, errStatus,
        taskNotFound404]
  · cases h : Schedules.findSchedule sdb2 sid2 uid2 <;>
      simp [Schedules.get_schedule, h, errStatus, scheduleNotFound404]
  · cases h : Schedules.findSchedule sdb2 sid2 uid2 <;>
      simp [Schedules.update_schedule, h, errStatus, scheduleNotFound404]
  · cases h : Schedules.findSchedule sdb2 sid2 uid2 <;>
      simp [Schedules.delete_schedule, h, errStatus, scheduleNotFound404]

/-- Witness for `ownership_scoping`: a task and a schedule with id 1 exist
but belong to user 2, and user 1's lookups answer the plain 404s. -/
theorem ownership_scoping_witness :
    Tasks.get_task [{ id := 1, title := some "t", user_id := 2 }] 1 1
      = .error taskNotFound404 ∧
    Schedules.get_schedule [{ id := 1, title := some "s", start_time := some 0, user_id := 2 }] 1 1
      = .error scheduleNotFound404 := by
  have H := ownership_scoping
    [{ id := 1, title := some "t", user_id := 2 }]
    [{ id := 1, title := some "t", user_id := 2 }]
    [{ id := 1, title := some "s", start_time := some 0, user_id := 2 }]
    [{ id := 1, title := some "s", start_time := some 0, user_id := 2 }]
    1 1 1 1 1 1 0 0 {} {} {} {} (by decide) (by decide)
  exact ⟨H.1, H.2.2.2.2.1⟩

/-- C5 counterexample: a stored user whose record has no password hash (as
the Google callback creates) makes `verify_password` receive `None` as the
hash, which passlib rejects with a `TypeError`; the exception escapes the
handler (HTTP 500), so this credential mismatch is not answered with the
identical 401. -/
theorem login_no_hash_counterexample :
    login { SECRET_KEY := "k" } 0
        [{ id := 1, email := "g@example.com", google_id := some "sub-1" }]
        "g@example.com" "whatever"
      = .exn .typeError ∧
    (Outcome.exn (α := TokenResponse) .typeError).is401 = false ∧
    (Outcome.httpError (α := TokenResponse) invalidCredentials401).is401 = true := by
  refine ⟨rfl, rfl, by decide⟩

/-- C5 (amended): an unknown email and a wrong password against a stored
bcrypt hash are answered with the one identical 401
(`invalidCredentials401`); but for a stored user that has no password hash
(an external-identity account) the login handler does not reach a 401 —
`verify_password` raises `TypeError`, an unhandled exception surfaced as a
500. -/
theorem login_outcomes (s : Settings) (now : Nat) (db : UserDB)
    (e1 e2 e3 p1 p2 p3 : String) (u2 u3 : UserRec) (h2h : BcryptHash)
    (h1 : findUserByEmail db e1 = none)
    (h2 : findUserByEmail db e2 = some u2)
    (h2' : u2.hashed_password = some h2h)
    (h2'' : ¬ h2h.password = p2)
    (h3 : findUserByEmail db e3 = some u3)
    (h3' : u3.hashed_password = none) :
    login s now db e1 p1 = .httpError invalidCredentials401 ∧
    login s now db e2 p2 = .httpError invalidCredentials401 ∧
    login s now db e3 p3 = .exn .typeError := by
  refine ⟨?_, ?_, ?_⟩
  · simp [login, h1]
  · simp [login, h2, verify_password, h2', h2'']
  · simp [login, h3, verify_password, h3']

/-- Witness for `login_outcomes` over a two-user table: a local account
with a hash of "secret123" and a password-less external account. -/
theorem login_outcomes_witness :
    login { SECRET_KEY := "k" } 0
        [{ id := 1, email := "alice@example.com",
           hashed_password := some { password := "secret123", salt := 7 } },
         { id := 2, email := "g@example.com", google_id := some "sub-1" }]
        "nobody@example.com" "pw"
      = .httpError invalidCredentials401 ∧
    login { SECRET_KEY := "k" } 0
        [{ id := 1, email := "alice@example.com",
           hashed_password := some { password := "secret123", salt := 7 } },
         { id := 2, email := "g@example.com", google_id := some "sub-1" }]
        "alice@example.com" "wrong"
      = .httpError invalidCredentials401 ∧
    login { SECRET_KEY := "k" } 0
        [{ id := 1, email := "alice@example.com",
           hashed_password := some { password := "secret123", salt := 7 } },
         { id := 2, email := "g@example.com", google_id := some "sub-1" }]
        "g@example.com" "pw"
      = .exn .typeError :=
  login_outcomes { SECRET_KEY := "k" } 0
    [{ id := 1, email := "alice@example.com",
       hashed_password := some { password := "secret123", salt := 7 } },
     { id := 2, email := "g@example.com", google_id := some "sub-1" }]
    "nobody@example.com" "alice@example.com" "g@example.com" "pw" "wrong" "pw"
    { id := 1, email := "alice@example.com",
      hashed_password := some { password := "secret123", salt := 7 } }
    { id := 2, email := "g@example.com", google_id := some "sub-1" }
    { password := "secret123", salt := 7 }
    (by decide) (by decide) (by decide) (by decide) (by decide) (by decide)

/-- The user record the Google callback creates for a brand-new email
(no password hash, provider subject as `google_id`, active). -/
def googleCreatedUser (db : UserDB) (email : String) (name pic : Option String)
    (sub : String) (now : Nat) : UserRec :=
  { id := nextUserId db
    email := email
    full_name := name
    hashed_password := none
    google_id := some sub
    avatar_url := pic
    is_active := true
    created_at := now }

/-- C7: a first callback for a brand-new email appends exactly one user —
with the provider subject as `google_id` and no password hash — to the
table, and a second successful callback with the same email and subject
returns the very same record, changes no field of it (and no other row),
and issues a fresh token that verifies to the email at issuance time. -/
theorem google_callback_idempotent (s : Settings) (now1 now2 : Nat) (db : UserDB)
    (email sub : String) (name pic : Option String)
    (hnew : findUserByEmail db email = none)
    (hsub : sub.data.isEmpty = false) :
    google_callback s now1 db
        (.success (some { sub := some sub, email := some email, name := name, picture := pic }))
      = (.ok { access_token :=
                 create_access_token s (some email) (some (s.ACCESS_TOKEN_EXPIRE_MINUTES * 60)) now1
               token_type := "bearer"
               user := googleCreatedUser db email name pic sub now1 },
         db ++ [googleCreatedUser db email name pic sub now1]) ∧
    (googleCreatedUser db email name pic sub now1).google_id = some sub ∧
    (googleCreatedUser db email name pic sub now1).hashed_password = none ∧
    google_callback s now2 (db ++ [googleCreatedUser db email name pic sub now1])
        (.success (some { sub := some sub, email := some email, name := name, picture := pic }))
      = (.ok { access_token :=
                 create_access_token s (some email) (some (s.ACCESS_TOKEN_EXPIRE_MINUTES * 60)) now2
               token_type := "bearer"
               user := googleCreatedUser db email name pic sub now1 },
         db ++ [googleCreatedUser db email name pic sub now1]) ∧
    verify_token s now2
        (.jwt (create_access_token s (some email) (some (s.ACCESS_TOKEN_EXPIRE_MINUTES * 60)) now2))
      = .ok email := by
  have hfind2 : findUserByEmail (db ++ [googleCreatedUser db email name pic sub now1]) email
      = some (googleCreatedUser db email name pic sub now1) := by
    unfold findUserByEmail at hnew ⊢
    rw [List.find?_append, hnew]
    simp [googleCreatedUser]
  have hexp : ¬ now2 + s.ACCESS_TOKEN_EXPIRE_MINUTES * 60 < now2 := by omega
  refine ⟨?_, rfl, rfl, ?_, ?_⟩
  · simp [google_callback, hnew, googleCreatedUser]
  · have hf2 := hfind2
    simp only [googleCreatedUser] at hf2
    simp [google_callback, googleCreatedUser, hf2, googleIdFalsy, hsub]
  · simp [verify_token, jwtDecode, create_access_token, hexp]

/-- Witness for `google_callback_idempotent`: an empty table, email
`new@example.com`, subject `g-123`. -/
theorem google_callback_idempotent_witness :
    google_callback { SECRET_KEY := "k" } 0 []
        (.success (some { sub := some "g-123", email := some "new@example.com" }))
      = (.ok { access_token :=
                 create_access_token { SECRET_KEY := "k" } (some "new@example.com") (some 1800) 0
               token_type := "bearer"
               user := googleCreatedUser [] "new@example.com" none none "g-123" 0 },
         [] ++ [googleCreatedUser [] "new@example.com" none none "g-123" 0]) ∧
    (googleCreatedUser [] "new@example.com" none none "g-123" 0).google_id = some "g-123" ∧
    (googleCreatedUser [] "new@example.com" none none "g-123" 0).hashed_password = none ∧
    google_callback { SECRET_KEY := "k" } 5
        ([] ++ [googleCreatedUser [] "new@example.com" none none "g-123" 0])
        (.success (some { sub := some "g-123", email := some "new@example.com" }))
      = (.ok { access_token :=
                 create_access_token { SECRET_KEY := "k" } (some "new@example.com") (some 1800) 5
               token_type := "bearer"
               user := googleCreatedUser [] "new@example.com" none none "g-123" 0 },
         [] ++ [googleCreatedUser [] "new@example.com" none none "g-123" 0]) ∧
    verify_token { SECRET_KEY := "k" } 5
        (.jwt (create_access_token { SECRET_KEY := "k" } (some "new@example.com") (some 1800) 5))
      = .ok "new@example.com" :=
  google_callback_idempotent { SECRET_KEY := "k" } 0 5 [] "new@example.com" "g-123"
    none none rfl (by decide)

/-- A partial update never touches the primary key. -/
theorem updateTaskFields_id (t : TaskRec) (u : TaskUpdate) (now : Nat) :
    (TaskService.updateTaskFields t u now).id = t.id := by
  unfold TaskService.updateTaskFields applyUpdateData
  dsimp only
  split <;> rfl

/-- A partial update never touches the owner. -/
theorem updateTaskFields_user_id (t : TaskRec) (u : TaskUpdate) (now : Nat) :
    (TaskService.updateTaskFields t u now).user_id = t.user_id := by
  unfold TaskService.updateTaskFields applyUpdateData
  dsimp only
  split <;> rfl

/-- After committing the found row's replacement, the compound-filter
lookup returns the replacement (the new row still carries the requested
id and owner). -/
theorem get_task_by_id_commit (db : TaskDB) (task_id user_id : Nat) (t t' : TaskRec)
    (h : TaskService.get_task_by_id db task_id user_id = some t)
    (hid : t'.id = task_id) (huid : t'.user_id = user_id) :
    TaskService.get_task_by_id (commitTaskRow db t.id t') task_id user_id = some t' := by
  induction db with
  | nil => simp [TaskService.get_task_by_id] at h
  | cons r rs ih =>
      unfold TaskService.get_task_by_id at h ih ⊢
      by_cases hp : r.id = task_id ∧ r.user_id = user_id
      · rw [List.find?_cons_of_pos _ (by simpa using hp)] at h
        have hrt : r = t := by simpa using h
        subst hrt
        simp [commitTaskRow, List.find?_cons_of_pos, hid, huid]
      · rw [List.find?_cons_of_neg _ (by simpa using hp)] at h
        unfold commitTaskRow
        by_cases hr : r.id = t.id
        · simp [hr, List.find?_cons_of_pos, hid, huid]
        · rw [if_neg hr]
          rw [List.find?_cons_of_neg _ (by simpa using hp)]
          exact ih h

/-- C8: on a task the compound filter finds for the caller, the partial
update whose payload is exactly `{status: "completed"}` yields a row with
`is_completed = true` and `completed_at` stamped, and the subsequent
partial update of that row with exactly `{status: "pending"}` yields
`is_completed = false` and `completed_at` cleared; both leave `title` and
`description` unchanged. -/
theorem task_status_partial_update (db : TaskDB) (task_id user_id now1 now2 : Nat)
    (t : TaskRec) (h : TaskService.get_task_by_id db task_id user_id = some t) :
    (TaskService.update_task db task_id
        { status := some (some TaskStatus.completed) } user_id now1).1
      = some (TaskService.updateTaskFields t
          { status := some (some TaskStatus.completed) } now1) ∧
    (TaskService.updateTaskFields t
        { status := some (some TaskStatus.completed) } now1).is_completed = some true ∧
    (TaskService.updateTaskFields t
        { status := some (some TaskStatus.completed) } now1).completed_at = some now1 ∧
    (TaskService.updateTaskFields t
        { status := some (some TaskStatus.completed) } now1).title = t.title ∧
    (TaskService.updateTaskFields t
        { status := some (some TaskStatus.completed) } now1).description = t.description ∧
    (TaskService.update_task
        (TaskService.update_task db task_id
          { status := some (some TaskStatus.completed) } user_id now1).2
        task_id { status := some (some TaskStatus.pending) } user_id now2).1
      = some (TaskService.updateTaskFields
          (TaskService.updateTaskFields t { status := some (some TaskStatus.completed) } now1)
          { status := some (some TaskStatus.pending) } now2) ∧
    (TaskService.updateTaskFields
        (TaskService.updateTaskFields t { status := some (some TaskStatus.completed) } now1)
        { status := some (some TaskStatus.pending) } now2).is_completed = some false ∧
    (TaskService.updateTaskFields
        (TaskService.updateTaskFields t { status := some (some TaskStatus.completed) } now1)
        { status := some (some TaskStatus.pending) } now2).completed_at = none ∧
    (TaskService.updateTaskFields
        (TaskService.updateTaskFields t { status := some (some TaskStatus.completed) } now1)
        { status := some (some TaskStatus.pending) } now2).title = t.title ∧
    (TaskService.updateTaskFields
        (TaskService.updateTaskFields t { status := some (some TaskStatus.completed) } now1)
        { status := some (some TaskStatus.pending) } now2).description = t.description := by
  have hp : t.id = task_id ∧ t.user_id = user_id := by
    simpa using List.find?_some h
  have hdb2 : (TaskService.update_task db task_id
      { status := some (some TaskStatus.completed) } user_id now1).2
        = commitTaskRow db t.id
            (TaskService.updateTaskFields t
              { status := some (some TaskStatus.completed) } now1) := by
    simp [TaskService.update_task, h]
  have hfind2 : TaskService.get_task_by_id
      (commitTaskRow db t.id
        (TaskService.updateTaskFields t { status := some (some TaskStatus.completed) } now1))
      task_id user_id
        = some (TaskService.updateTaskFields t
            { status := some (some TaskStatus.completed) } now1) :=
    get_task_by_id_commit db task_id user_id t _ h
      ((updateTaskFields_id t _ now1).trans hp.1)
      ((updateTaskFields_user_id t _ now1).trans hp.2)
  refine ⟨by simp [TaskService.update_task, h], ?_, ?_, ?_, ?_,
      by rw [hdb2]; simp [TaskService.update_task, hfind2], ?_, ?_, ?_, ?_⟩ <;>
    simp [TaskService.updateTaskFields, TaskUpdate.dump, statusChangeLogic,
      isCompletedChangeLogic, applyUpdateData]

/-- Witness for `task_status_partial_update` on a concrete one-task table
owned by user 1: `{status: "completed"}` at time 10 marks it completed,
then `{status: "pending"}` at time 20 unmarks it. -/
theorem task_status_partial_update_witness :
    (TaskService.updateTaskFields
        { id := 1, title := some "Write spec", description := some "notes", user_id := 1 }
        { status := some (some TaskStatus.completed) } 10).is_completed = some true ∧
    (TaskService.updateTaskFields
        { id := 1, title := some "Write spec", description := some "notes", user_id := 1 }
        { status := some (some TaskStatus.completed) } 10).completed_at = some 10 ∧
    (TaskService.updateTaskFields
        (TaskService.updateTaskFields
          { id := 1, title := some "Write spec", description := some "notes", user_id := 1 }
          { status := some (some TaskStatus.completed) } 10)
        { status := some (some TaskStatus.pending) } 20).is_completed = some false ∧
    (TaskService.updateTaskFields
        (TaskService.updateTaskFields
          { id := 1, title := some "Write spec", description := some "notes", user_id := 1 }
          { status := some (some TaskStatus.completed) } 10)
        { status := some (some TaskStatus.pending) } 20).completed_at = none := by
  have H := task_status_partial_update
    [{ id := 1, title := some "Write spec", description := some "notes", user_id := 1 }]
    1 1 10 20
    { id := 1, title := some "Write spec", description := some "notes", user_id := 1 }
    (by decide)
  exact ⟨H.2.1, H.2.2.1, H.2.2.2.2.2.2.1, H.2.2.2.2.2.2.2.1⟩

/-- Toggling never touches the primary key. -/
theorem toggleFields_id (t : TaskRec) (now : Nat) :
    (TaskService.toggleFields t now).id = t.id := by
  unfold TaskService.toggleFields
  split <;> rfl

/-- Toggling never touches the owner. -/
theorem toggleFields_user_id (t : TaskRec) (now : Nat) :
    (TaskService.toggleFields t now).user_id = t.user_id := by
  unfold TaskService.toggleFields
  split <;> rfl

/-- C9 counterexample: a not-completed task whose status is `in_progress`
does not return to its original state under a double toggle — the second
toggle resets its status to `pending` (and its row also carries fresh
timestamps), so double-toggle is not an identity on every task. -/
theorem toggle_double_counterexample :
    ((TaskService.toggle_task_completion
        (TaskService.toggle_task_completion
          [{ id := 1, title := some "t", status := some TaskStatus.in_progress, user_id := 1 }]
          1 1 10).2 1 1 20).1.map TaskRec.status)
      = some (some TaskStatus.pending) ∧
    ({ id := 1, title := some "t", status := some TaskStatus.in_progress, user_id := 1 }
        : TaskRec).status = some TaskStatus.in_progress ∧
    some (some TaskStatus.pending) ≠ some (some TaskStatus.in_progress) := by
  refine ⟨by decide, rfl, by decide⟩

/-- C9 (amended): toggle-completion flips the truthiness of `is_completed`
and synchronizes `status` and `completed_at` (`completed` with a fresh
timestamp when it becomes true, `pending` with a cleared timestamp when it
becomes false).  A double toggle restores the completion fields
(`status`, `is_completed`, `completed_at`) exactly for tasks starting in
the canonical not-completed state (`pending`, `false`, no timestamp); a
not-completed task starting e.g. `in_progress` ends at `pending` instead,
and `updated_at`/`completed_at` timestamps are refreshed, not restored. -/
theorem toggle_semantics (db : TaskDB) (task_id user_id now1 now2 : Nat) (t : TaskRec)
    (h : TaskService.get_task_by_id db task_id user_id = some t) :
    (TaskService.toggle_task_completion db task_id user_id now1).1
      = some { TaskService.toggleFields t now1 with updated_at := some now1 } ∧
    (TaskService.toggleFields t now1).is_completed = some (! truthy t.is_completed) ∧
    (TaskService.toggleFields t now1).status
      = some (if truthy t.is_completed then TaskStatus.pending else TaskStatus.completed) ∧
    (TaskService.toggleFields t now1).completed_at
      = (if truthy t.is_completed then none else some now1) ∧
    (TaskService.toggle_task_completion
        (TaskService.toggle_task_completion db task_id user_id now1).2 task_id user_id now2).1
      = some { TaskService.toggleFields
                 { TaskService.toggleFields t now1 with updated_at := some now1 } now2 with
               updated_at := some now2 } ∧
    (t.status = some TaskStatus.pending ∧ t.is_completed = some false ∧ t.completed_at = none →
      (TaskService.toggleFields
          { TaskService.toggleFields t now1 with updated_at := some now1 } now2).status = t.status ∧
      (TaskService.toggleFields
          { TaskService.toggleFields t now1 with updated_at := some now1 } now2).is_completed
        = t.is_completed ∧
      (TaskService.toggleFields
          { TaskService.toggleFields t now1 with updated_at := some now1 } now2).completed_at
        = t.completed_at) := by
  have hp : t.id = task_id ∧ t.user_id = user_id := by
    simpa using List.find?_some h
  have hdb2 : (TaskService.toggle_task_completion db task_id user_id now1).2
      = commitTaskRow db t.id
          { TaskService.toggleFields t now1 with updated_at := some now1 } := by
    simp [TaskService.toggle_task_completion, h]
  have hfind2 : TaskService.get_task_by_id
      (commitTaskRow db t.id { TaskService.toggleFields t now1 with updated_at := some now1 })
      task_id user_id
        = some { TaskService.toggleFields t now1 with updated_at := some now1 } :=
    get_task_by_id_commit db task_id user_id t _ h
      ((toggleFields_id t now1).trans hp.1)
      ((toggleFields_user_id t now1).trans hp.2)
  refine ⟨by simp [TaskService.toggle_task_completion, h], ?_, ?_, ?_,
      by rw [hdb2]; simp [TaskService.toggle_task_completion, hfind2], ?_⟩
  · cases htr : truthy t.is_completed <;> simp [TaskService.toggleFields, htr]
  · cases htr : truthy t.is_completed <;> simp [TaskService.toggleFields, htr]
  · cases htr : truthy t.is_completed <;> simp [TaskService.toggleFields, htr]
  · rintro ⟨hs, hic, hca⟩
    simp [TaskService.toggleFields, truthy, hic, hs, hca]

/-- Witness for `toggle_semantics` on a concrete canonical pending task:
the flip and the double-toggle restoration of the completion fields. -/
theorem toggle_semantics_witness :
    (TaskService.toggleFields { id := 1, title := some "t", user_id := 1 } 10).is_completed
      = some (! truthy ({ id := 1, title := some "t", user_id := 1 } : TaskRec).is_completed) ∧
    (TaskService.toggleFields
        { TaskService.toggleFields { id := 1, title := some "t", user_id := 1 } 10 with
          updated_at := some 10 } 20).status
      = ({ id := 1, title := some "t", user_id := 1 } : TaskRec).status ∧
    (TaskService.toggleFields
        { TaskService.toggleFields { id := 1, title := some "t", user_id := 1 } 10 with
          updated_at := some 10 } 20).is_completed
      = ({ id := 1, title := some "t", user_id := 1 } : TaskRec).is_completed ∧
    (TaskService.toggleFields
        { TaskService.toggleFields { id := 1, title := some "t", user_id := 1 } 10 with
          updated_at := some 10 } 20).completed_at
      = ({ id := 1, title := some "t", user_id := 1 } : TaskRec).completed_at := by
  have H := toggle_semantics [{ id := 1, title := some "t", user_id := 1 }] 1 1 10 20
    { id := 1, title := some "t", user_id := 1 } (by decide)
  have R := H.2.2.2.2.2 (by exact ⟨rfl, rfl, rfl⟩)
  exact ⟨H.2.1, R.1, R.2.1, R.2.2⟩

/-- C10 counterexample: on a pending task, the payload
`{status: "completed", is_completed: false}` ends with the task completed —
`is_completed = true` and `completed_at` stamped — because the status block
overwrites the payload's `is_completed` inside `update_data` before the
`is_completed` block reads it; the claimed outcome (`is_completed` false,
`completed_at` cleared) does not occur. -/
theorem update_precedence_counterexample :
    ((TaskService.update_task [{ id := 1, title := some "t", user_id := 1 }] 1
        { status := some (some TaskStatus.completed), is_completed := some (some false) }
        1 10).1.map TaskRec.is_completed)
      = some (some true) ∧
    ((TaskService.update_task [{ id := 1, title := some "t", user_id := 1 }] 1
        { status := some (some TaskStatus.completed), is_completed := some (some false) }
        1 10).1.map TaskRec.completed_at)
      = some (some 10) ∧
    (some (some true) : Option (Option Bool)) ≠ some (some false) := by
  refine ⟨by decide, by decide, by decide⟩

/-- C10 (amended): when a payload contains both `status` and
`is_completed`, it is the status-derived state that wins whenever the
status rule fires: `{status: "completed", is_completed: false}` leaves the
task completed with `completed_at` stamped and `status = completed`.  The
payload's `is_completed` survives only when the status rule does not fire
(new status not `completed` and the stored status not `completed`). -/
theorem update_field_precedence (t : TaskRec) (now : Nat)
    (s : Option TaskStatus) (b : Option Bool)
    (hs : ¬ s = some TaskStatus.completed) (ht : ¬ t.status = some TaskStatus.completed) :
    (TaskService.updateTaskFields t
        { status := some (some TaskStatus.completed), is_completed := some (some false) }
        now).is_completed = some true ∧
    (TaskService.updateTaskFields t
        { status := some (some TaskStatus.completed), is_completed := some (some false) }
        now).completed_at = some now ∧
    (TaskService.updateTaskFields t
        { status := some (some TaskStatus.completed), is_completed := some (some false) }
        now).status = some TaskStatus.completed ∧
    (TaskService.updateTaskFields t
        { status := some s, is_completed := some b } now).is_completed = b := by
  refine ⟨?_, ?_, ?_, ?_⟩ <;>
    [skip; skip; skip;
     (by_cases hb : b = some true <;>
       simp [TaskService.updateTaskFields, TaskUpdate.dump, statusChangeLogic,
         isCompletedChangeLogic, applyUpdateData, hs, ht, hb])] <;>
    simp [TaskService.updateTaskFields, TaskUpdate.dump, statusChangeLogic,
      isCompletedChangeLogic, applyUpdateData]

/-- Witness for `update_field_precedence` at a concrete pending task, with
a non-completed payload status `in_progress` and payload
`is_completed = true`. -/
theorem update_field_precedence_witness :
    (TaskService.updateTaskFields { id := 1, title := some "t", user_id := 1 }
        { status := some (some TaskStatus.completed), is_completed := some (some false) }
        10).is_completed = some true ∧
    (TaskService.updateTaskFields { id := 1, title := some "t", user_id := 1 }
        { status := some (some TaskStatus.completed), is_completed := some (some false) }
        10).completed_at = some 10 ∧
    (TaskService.updateTaskFields { id := 1, title := some "t", user_id := 1 }
        { status := some (some TaskStatus.completed), is_completed := some (some false) }
        10).status = some TaskStatus.completed ∧
    (TaskService.updateTaskFields { id := 1, title := some "t", user_id := 1 }
        { status := some (some TaskStatus.in_progress), is_completed := some (some true) }
        10).is_completed = some true :=
  update_field_precedence { id := 1, title := some "t", user_id := 1 } 10
    (some TaskStatus.in_progress) (some true) (by decide) (by decide)

end Motiva
